import Mathlib

/-!
# Verification of the CreAIta stream manager

Shallow embedding of `app/stream_manager.py`, `app/stream_handlers.py` and
`app/database.py`.  Pure decision logic (back-off delays, handler selection,
glob/suffix filters, the SQL upsert) is translated directly; the stateful
supervisor (`ManagedStream`) is modelled as explicit state passing: each
Python method (or the resumption of a method after one of its sleeps) becomes
a Lean function from supervisor state to supervisor state, with the
environment-dependent parts (process exit codes, subprocess results, the
filesystem) passed in as explicit parameters.
-/

/-! ## String helpers

The Python `in` operator, `startswith`-style glob matches and the path suffix
are modelled over the character list of a `String`. -/

/-- Python `needle in hay` (substring containment). -/
def containsStr (hay needle : String) : Bool :=
  decide (needle.data <:+: hay.data)

/-- Glob `*.ext` match: the file name ends with the given literal text. -/
def endsWithStr (s tail : String) : Bool :=
  decide (tail.data <:+ s.data)

/-- Glob `lit*` match: the file name starts with the given literal text. -/
def startsWithStr (s head : String) : Bool :=
  decide (head.data <+: s.data)

/-- Model of `pathlib.Path.suffix` for the file names the manager produces:
the text from the last dot on, `""` when the name contains no dot. -/
def fsuffix (n : String) : String :=
  if n.data.contains '.' then
    String.mk ('.' :: (n.data.reverse.takeWhile (fun c => c != '.')).reverse)
  else ""

/-! ## Supervisor state (`ManagedStream`)

One record per `ManagedStream` instance: the mutable fields of `self.info`
that the claims mention, plus the private supervision fields
(`_generation`, `_stopping`, `_restart_count`) and the liveness of the two
OS processes and the stderr log handle. -/

/-- The status strings of `StreamInfo.status`. -/
inductive StreamStatus
  | initializing
  | starting
  | downloading
  | running
  | restarting
  | stopped
  | error
  deriving DecidableEq, Repr

/-- Supervisor state: `self.info` status fields plus `_generation`,
`_stopping`, `_restart_count`, and whether the transcoder (`self.process`),
the feeder (`self._feeder`) and the stderr log handle are currently live. -/
structure StreamState where
  generation : Nat
  stopping : Bool
  restartCount : Nat
  status : StreamStatus
  errorMessage : String
  processAlive : Bool
  feederAlive : Bool
  stderrOpen : Bool
  isPlatform : Bool
  isVod : Bool
  deriving DecidableEq, Repr

/-- Background threads spawned by `start()` and `_try_restart`. -/
inductive BgTask
  | monitor
  | healthCheck
  | tokenRefresh
  | confirmRecovery
  deriving DecidableEq, Repr

/-- Environment of one `start()` call: whether the dispatched
`_start_vod` / `_start_piped` / `_start_direct` raised (`Except.error`
carries `str(exc)`). -/
structure LaunchEnv where
  result : Except String Unit

/-- `ManagedStream.start()`.  Early-returns when a transcoder process is
already alive; otherwise clears `_stopping`, bumps `_generation`, purges
stale output (not part of this state record), dispatches the launch, and on
success sets `running` and spawns the background threads (monitor always;
health check for platform or VOD; token refresh for platform-and-not-VOD).
On a launch exception it sets `error` with the exception detail, spawns
nothing, and returns. -/
def startOp (env : LaunchEnv) (s : StreamState) : StreamState × List BgTask :=
  if s.processAlive then (s, [])
  else
    let s1 : StreamState := { s with stopping := false, generation := s.generation + 1 }
    match env.result with
    | Except.error e => ({ s1 with status := StreamStatus.error, errorMessage := e }, [])
    | Except.ok _ =>
        let s2 : StreamState :=
          { s1 with status := StreamStatus.running, errorMessage := "",
                    processAlive := true, stderrOpen := true }
        (s2,
          [BgTask.monitor] ++
            (if s.isPlatform || s.isVod then
              [BgTask.healthCheck] ++ (if !s.isVod then [BgTask.tokenRefresh] else [])
            else []))

/-- The ordered teardown actions `stop()` can issue. -/
inductive StopEvent
  | killFeeder
  | sigintTranscoder
  | killTranscoder
  | closeStderrLog
  deriving DecidableEq, Repr

/-- Environment of one `stop()` call: whether `process.wait(timeout=5)`
timed out (or raised), forcing the escalation to `kill()`. -/
structure StopEnv where
  waitTimedOut : Bool

/-- `ManagedStream.stop()`.  Sets `_stopping`, bumps `_generation`, kills
the feeder first (when one is alive), then sends SIGINT to the transcoder,
escalating to a kill when the bounded wait expires, closes the stderr log
handle, and sets status `stopped`.  Returns the final state and the ordered
list of teardown actions issued. -/
def stopOp (env : StopEnv) (s : StreamState) : StreamState × List StopEvent :=
  let s1 : StreamState := { s with stopping := true, generation := s.generation + 1 }
  let fEvs := if s1.feederAlive then [StopEvent.killFeeder] else []
  let s2 : StreamState := { s1 with feederAlive := false }
  let tEvs :=
    if s1.processAlive then
      if env.waitTimedOut then [StopEvent.sigintTranscoder, StopEvent.killTranscoder]
      else [StopEvent.sigintTranscoder]
    else []
  let s3 : StreamState := { s2 with processAlive := false }
  let cEvs := if s1.stderrOpen then [StopEvent.closeStderrLog] else []
  ({ s3 with stderrOpen := false, status := StreamStatus.stopped }, fEvs ++ tEvs ++ cEvs)

/-- What the monitor thread does after handling the exit itself. -/
inductive MonitorAction
  | doNothing
  | triggerRestart
  deriving DecidableEq, Repr

/-- The error message `_monitor` records for a non-platform non-zero exit. -/
def exitCodeMsg (ret : Int) : String :=
  "FFmpeg exited with code " ++ toString ret

/-- `ManagedStream._monitor(gen)` at the moment `self.process.wait()`
returns with exit code `ret`.  The code first kills a still-alive feeder,
then returns if the generation is stale or stopping is set, then closes the
stderr handle and branches: platform sources trigger a restart attempt for
every exit code; non-platform sources go to `stopped` on exit code 0 and to
`error` (with the code recorded) otherwise. -/
def monitorOnExit (g : Nat) (ret : Int) (s : StreamState) : StreamState × MonitorAction :=
  let s1 := if s.feederAlive then { s with feederAlive := false } else s
  if g ≠ s1.generation ∨ s1.stopping = true then (s1, MonitorAction.doNothing)
  else
    let s2 : StreamState := { s1 with stderrOpen := false }
    if ret = 0 then
      if s2.isPlatform then (s2, MonitorAction.triggerRestart)
      else ({ s2 with status := StreamStatus.stopped }, MonitorAction.doNothing)
    else
      if s2.isPlatform then (s2, MonitorAction.triggerRestart)
      else ({ s2 with status := StreamStatus.error,
                      errorMessage := exitCodeMsg ret }, MonitorAction.doNothing)

/-- The back-off of `_try_restart`:
`delay = min(3 * (2 ** (attempt - 1)), 30)`. -/
def restartDelay (attempt : Nat) : Nat :=
  min (3 * 2 ^ (attempt - 1)) 30

/-- The locked section of `ManagedStream._try_restart(gen)`: under
`_restart_lock`, abort when the generation is stale or stopping is set;
otherwise increment `_restart_count` once, set status `restarting`, and
hand out the attempt number the delay is computed from. -/
def tryRestartEnter (g : Nat) (s : StreamState) : StreamState × Option Nat :=
  if g ≠ s.generation ∨ s.stopping = true then (s, none)
  else
    ({ s with restartCount := s.restartCount + 1, status := StreamStatus.restarting },
      some (s.restartCount + 1))

/-- The resumption of `_try_restart` after its back-off sleep: the code
re-checks only `self._stopping` (not the generation) and then calls
`self.start()`, afterwards spawning `_confirm_recovery`. -/
def tryRestartResume (env : LaunchEnv) (s : StreamState) : StreamState × List BgTask :=
  if s.stopping = true then (s, [])
  else
    let r := startOp env s
    (r.1, r.2 ++ [BgTask.confirmRecovery])

/-- Filesystem observation one health-check iteration makes: the current
`*.ts` segment list, the age of the newest segment, and the time since the
current launch. -/
structure ProbeEnv where
  segs : List String
  newestAge : Nat
  sinceStart : Nat

/-- One iteration of the `while` loop of `_health_check(gen)` (after the
initial grace period): exit on stale generation or stopping, exit if the
process is already dead, otherwise kill feeder and transcoder when the
newest segment is older than `STUCK_THRESHOLD = 90` seconds, or when no
segment at all appeared within `INITIAL_GRACE + 30 = 75` seconds of launch. -/
def healthCheckTick (g : Nat) (env : ProbeEnv) (s : StreamState) : StreamState :=
  if g ≠ s.generation ∨ s.stopping = true then s
  else if s.processAlive = false then s
  else if env.segs ≠ [] then
    if env.newestAge > 90 then { s with feederAlive := false, processAlive := false } else s
  else
    if env.sinceStart > 45 + 30 then { s with feederAlive := false, processAlive := false }
    else s

/-- The resumption of `_periodic_token_refresh(gen)` after its 50-minute
sleep: exit on stale generation or stopping, otherwise kill feeder and
transcoder so the monitor restarts with a fresh token. -/
def tokenRefreshResume (g : Nat) (s : StreamState) : StreamState :=
  if g ≠ s.generation ∨ s.stopping = true then s
  else { s with feederAlive := false, processAlive := false }

/-- The final step of `_confirm_recovery(gen)` after its 60-second wait:
reset `_restart_count` to 0 when at least one segment exists and the
generation is still current. -/
def confirmRecoveryEnd (g : Nat) (segs : List String) (s : StreamState) : StreamState :=
  if segs ≠ [] ∧ g = s.generation then { s with restartCount := 0 } else s

/-! ## VOD launch (`_start_vod`)

The stream working directory is modelled as the list of file names it
contains; `yt-dlp` invocations are modelled by an environment giving the
outcome (return code, stderr text) of each strategy and the files a
successful download leaves behind. -/

/-- The suffixes `_start_vod` excludes when looking for a cached asset. -/
def vodExcludedSuffixes : List String := [".ts", ".m3u8", ".log", ".part"]

/-- The cached-asset filter of `_start_vod`: glob `source_video.*` with
`f.suffix not in (".ts", ".m3u8", ".log", ".part")`. -/
def isCachedVodAsset (n : String) : Bool :=
  startsWithStr n "source_video." && !(vodExcludedSuffixes.contains (fsuffix n))

/-- The stale-output purge at the top of `start()`: unlink every
`*.ts`, `*.m3u8` and `*.part` file in the stream directory. -/
def purgeStale (dir : List String) : List String :=
  dir.filter fun n =>
    !(endsWithStr n ".ts" || endsWithStr n ".m3u8" || endsWithStr n ".part")

/-- Result of one `subprocess.run` of a `yt-dlp` download strategy. -/
structure FetchOutcome where
  rc : Int
  errOut : String
  deriving DecidableEq, Repr

/-- The strategy descriptions of `_start_vod`, in order. -/
def vodStrategies : List String := ["without cookies", "with Chrome cookies"]

/-- Accumulated outcome of the strategy loop of `_start_vod`. -/
structure ChainResult where
  attempts : Nat
  errorMessages : List String
  ok : Bool
  deriving DecidableEq, Repr

/-- The per-strategy diagnostic `_start_vod` records:
`description`, then the first 200 characters of the stripped stderr. -/
def fetchDiag (desc : String) (o : FetchOutcome) : String :=
  desc ++ ": " ++ (o.errOut.trim.take 200)

/-- The `for extra_args, description in strategies` loop of `_start_vod`:
stop with success on return code 0; otherwise record the diagnostic and try
the next strategy only when the stderr matches the bot-detection signature
`"Sign in to confirm"`, else stop at this first failure. -/
def runFetchChain : List (String × FetchOutcome) → ChainResult
  | [] => ⟨0, [], false⟩
  | (desc, o) :: rest =>
    if o.rc = 0 then ⟨1, [], true⟩
    else
      if containsStr o.errOut "Sign in to confirm" then
        let r := runFetchChain rest
        ⟨r.attempts + 1, fetchDiag desc o :: r.errorMessages, r.ok⟩
      else ⟨1, [fetchDiag desc o], false⟩

/-- An apostrophe, spelled via its code point. -/
def apos : String := String.singleton (Char.ofNat 39)

/-- The `RuntimeError` text `_start_vod` raises when every attempted
strategy failed: a fixed prefix followed by the per-strategy diagnostics
joined with `" | "` and truncated to 400 characters. -/
def vodDownloadErrorMsg (errs : List String) : String :=
  "yt-dlp download failed after trying all strategies. Please ensure you" ++ apos ++
    "re logged in to YouTube in your browser. Errors: " ++
    (String.intercalate " | " errs).take 400

/-- Environment of one `_start_vod` call: the outcome of each download
strategy, and the files a successful download adds to the directory. -/
structure VodEnv where
  outcome1 : FetchOutcome
  outcome2 : FetchOutcome
  fetchedFiles : List String

/-- Result of `_start_vod`: directory contents afterwards, how many
download invocations ran, the file the transcoder is launched against,
and the raised exception text (when any). -/
structure VodResult where
  dir : List String
  fetchCalls : Nat
  video : Option String
  raised : Option String
  deriving DecidableEq, Repr

/-- The strategy loop of `_start_vod` run against the two per-strategy
outcomes of the environment. -/
def vodChain (env : VodEnv) : ChainResult :=
  runFetchChain (vodStrategies.zip [env.outcome1, env.outcome2])

/-- `ManagedStream._start_vod` over the directory model: reuse the first
cached `source_video.*` asset with zero downloads when one exists;
otherwise run the strategy chain, raising the concatenated diagnostics on
exhaustion, and launch against the first asset the download produced. -/
def startVodCore (env : VodEnv) (dir : List String) : VodResult :=
  match dir.filter (fun n => isCachedVodAsset n) with
  | v :: _ => { dir := dir, fetchCalls := 0, video := some v, raised := none }
  | [] =>
    let r := vodChain env
    if r.ok = false then
      { dir := dir, fetchCalls := r.attempts, video := none,
        raised := some (vodDownloadErrorMsg r.errorMessages) }
    else
      let dir2 := dir ++ env.fetchedFiles
      match dir2.filter (fun n => isCachedVodAsset n) with
      | [] => { dir := dir2, fetchCalls := r.attempts, video := none,
                raised := some "yt-dlp produced no output file" }
      | v :: _ => { dir := dir2, fetchCalls := r.attempts, video := some v, raised := none }

/-- The `start()` path of a VOD stream: purge stale output, then
`_start_vod` over the purged directory. -/
def startVodFromStart (env : VodEnv) (dir : List String) : VodResult :=
  startVodCore env (purgeStale dir)

/-- `start()` of a VOD stream combined with the exception handler of
`start()`: a raise inside `_start_vod` lands the stream in `error` with
the exception text and spawns no background thread; success sets
`running` and spawns monitor and health check (no token refresh, the
stream being VOD). -/
def startVodOp (venv : VodEnv) (dir : List String) (s : StreamState) :
    StreamState × List BgTask :=
  if s.processAlive then (s, [])
  else
    let s1 : StreamState := { s with stopping := false, generation := s.generation + 1 }
    let r := startVodFromStart venv dir
    match r.raised with
    | some e => ({ s1 with status := StreamStatus.error, errorMessage := e }, [])
    | none =>
        ({ s1 with status := StreamStatus.running, errorMessage := "",
                   processAlive := true, stderrOpen := true },
          [BgTask.monitor, BgTask.healthCheck])

/-! ## Handler registry (`stream_handlers.py`) -/

/-- The four handler classes, in registry order. -/
inductive HandlerKind
  | twitch
  | youtube
  | amss
  | generic
  deriving DecidableEq, Repr

/-- `can_handle` of each handler class: substring tests on the lowered
URL for the three platform handlers; `GenericHandler.can_handle` returns
`True` for every URL. -/
def canHandle : HandlerKind → String → Bool
  | HandlerKind.twitch, url => containsStr url.toLower "twitch.tv/"
  | HandlerKind.youtube, url =>
      containsStr url.toLower "youtube.com/" || containsStr url.toLower "youtu.be/"
  | HandlerKind.amss, url => containsStr url.toLower "kamere.amss.org.rs"
  | HandlerKind.generic, _ => true

/-- `StreamHandlerRegistry.__init__`: the ordered handler list, the
generic catch-all last. -/
def registryHandlers : List HandlerKind :=
  [HandlerKind.twitch, HandlerKind.youtube, HandlerKind.amss, HandlerKind.generic]

/-- The loop body of `StreamHandlerRegistry.get_handler`: walk the ordered
list and return the first handler whose `can_handle` accepts the URL. -/
def findHandler (l : List HandlerKind) (url : String) : Option HandlerKind :=
  match l with
  | [] => none
  | h :: t => if canHandle h url then some h else findHandler t url

/-- The loop of `StreamHandlerRegistry.get_handler`: the first handler
whose `can_handle` accepts the URL, when any. -/
def getHandlerOpt (url : String) : Option HandlerKind :=
  findHandler registryHandlers url

/-- `StreamHandlerRegistry.get_handler`: the loop result, falling back to
the last handler of the list (the line the code marks as unreachable). -/
def getHandler (url : String) : HandlerKind :=
  match getHandlerOpt url with
  | some h => h
  | none => HandlerKind.generic

/-! ## Stream registry (`StreamManager`) -/

/-- The descriptor fields `list_streams` serialises (`asdict(m.info)`). -/
structure StreamDesc where
  id : String
  name : String
  sourceUrl : String
  status : StreamStatus
  errorMessage : String
  isPlatformUrl : Bool
  isVod : Bool
  createdAt : Nat
  deriving DecidableEq, Repr

/-- `self._streams`: a dict keyed by the composite `(user_id, stream_id)`
pair, modelled as an insertion-ordered association list. -/
abbrev Registry := List ((Nat × String) × StreamDesc)

/-- Python dict insertion: overwrite in place when the key exists,
append otherwise. -/
def dictInsert (k : Nat × String) (v : StreamDesc) (reg : Registry) : Registry :=
  if reg.any (fun e => e.1 = k) then
    reg.map fun e => if e.1 = k then (k, v) else e
  else reg ++ [(k, v)]

/-- The `StreamInfo` that `add_stream_async` creates before the background
task runs: `initializing`, placeholder name `"Stream " + stream_id[:6]`
when the user gave none, platform and VOD flags still false. -/
def mkInitDesc (streamId : String) (nameArg : Option String) (url : String)
    (now : Nat) : StreamDesc :=
  { id := streamId,
    name := nameArg.getD ("Stream " ++ streamId.take 6),
    sourceUrl := url,
    status := StreamStatus.initializing,
    errorMessage := "",
    isPlatformUrl := false,
    isVod := false,
    createdAt := now }

/-- `StreamManager.add_stream_async`: registers the new supervisor under
the composite key `(user_id, stream_id)`. -/
def addStreamAsync (reg : Registry) (userId : Nat) (streamId : String)
    (url : String) (nameArg : Option String) (now : Nat) : Registry :=
  dictInsert (userId, streamId) (mkInitDesc streamId nameArg url now) reg

/-- `StreamManager.list_streams(user_id)`: the descriptors of exactly the
entries whose key has this user id. -/
def listStreams (reg : Registry) (userId : Nat) : List StreamDesc :=
  reg.filterMap fun e => if e.1.1 = userId then some e.2 else none

/-! ## Database upsert (`database.save_stream`) -/

/-- One row of the `streams` table. -/
structure StreamRow where
  userId : Nat
  streamId : String
  name : String
  sourceUrl : String
  status : String
  errorMessage : String
  isPlatformUrl : Bool
  isVod : Bool
  createdAt : Nat
  deriving DecidableEq, Repr

/-- The `DO UPDATE SET` branch of the upsert: replace `name`, `status`,
`error_message`, `is_platform_url`, `is_vod` from the excluded row,
leaving `source_url` and `created_at` as stored. -/
def upsertUpdate (r : StreamRow) (name status errorMessage : String)
    (isPlatformUrl isVod : Bool) : StreamRow :=
  { r with name := name, status := status, errorMessage := errorMessage,
           isPlatformUrl := isPlatformUrl, isVod := isVod }

/-- `database.save_stream`: `INSERT ... ON CONFLICT(user_id, stream_id)
DO UPDATE SET name, status, error_message, is_platform_url, is_vod`.
A fresh row gets the caller-supplied `source_url` and `created_at = now`;
a conflicting row keeps both. -/
def saveStream (db : List StreamRow) (userId : Nat) (streamId : String)
    (name sourceUrl status errorMessage : String)
    (isPlatformUrl isVod : Bool) (now : Nat) : List StreamRow :=
  if db.any (fun r => r.userId = userId ∧ r.streamId = streamId) then
    db.map fun r =>
      if r.userId = userId ∧ r.streamId = streamId then
        upsertUpdate r name status errorMessage isPlatformUrl isVod
      else r
  else
    db ++ [{ userId := userId, streamId := streamId, name := name,
             sourceUrl := sourceUrl, status := status,
             errorMessage := errorMessage, isPlatformUrl := isPlatformUrl,
             isVod := isVod, createdAt := now }]

/-! ## Helper lemmas -/

theorem containsStr_append_right (a b : String) : containsStr (a ++ b) b = true := by
  apply decide_eq_true
  have hdata : (a ++ b).data = a.data ++ b.data := rfl
  rw [hdata]
  exact (List.suffix_append a.data b.data).isInfix

theorem takeWhile_append_of_forall {p : Char → Bool} (a b : List Char)
    (h : ∀ x ∈ a, p x = true) : (a ++ b).takeWhile p = a ++ b.takeWhile p := by
  induction a with
  | nil => simp
  | cons x t ih =>
    have hx : p x = true := h x (List.mem_cons_self x t)
    simp only [List.cons_append, List.takeWhile_cons, hx, if_true]
    rw [ih fun y hy => h y (List.mem_cons_of_mem x hy)]

theorem fsuffix_mk_append (l ext : List Char) (hdot : '.' ∉ ext) :
    fsuffix (String.mk (l ++ '.' :: ext)) = String.mk ('.' :: ext) := by
  have hcont : (l ++ '.' :: ext).contains '.' = true := by
    exact List.elem_eq_true_of_mem (by simp)
  simp only [fsuffix, hcont, if_true]
  congr 1
  have hrev : (l ++ '.' :: ext).reverse = ext.reverse ++ '.' :: l.reverse := by
    simp
  rw [hrev, takeWhile_append_of_forall _ _ fun x hx => ?side]
  case side =>
    have hxe : x ∈ ext := List.mem_reverse.mp hx
    have hne : x ≠ '.' := fun hc => hdot (hc ▸ hxe)
    simpa using hne
  have hstop : ('.' :: l.reverse).takeWhile (fun c => c != '.') = [] := by
    simp [List.takeWhile_cons]
  rw [hstop]
  simp

theorem fsuffix_of_suffix (n : String) (ext : List Char) (hdot : '.' ∉ ext)
    (h : List.IsSuffix ('.' :: ext) n.data) : fsuffix n = String.mk ('.' :: ext) := by
  obtain ⟨cs⟩ := n
  obtain ⟨l, hl⟩ := h
  have hcs : cs = l ++ '.' :: ext := hl.symm
  subst hcs
  exact fsuffix_mk_append l ext hdot

theorem cached_not_purged (n : String) (h : isCachedVodAsset n = true) :
    (endsWithStr n ".ts" || endsWithStr n ".m3u8" || endsWithStr n ".part") = false := by
  have hx : vodExcludedSuffixes.contains (fsuffix n) = false := by
    have := h
    simp only [isCachedVodAsset, Bool.and_eq_true, Bool.not_eq_true'] at this
    exact this.2
  cases h1 : endsWithStr n ".ts" with
  | true =>
    have hs : List.IsSuffix ('.' :: ['t', 's']) n.data := by
      have := of_decide_eq_true h1
      exact this
    have := fsuffix_of_suffix n ['t', 's'] (by decide) hs
    rw [this] at hx
    simp [vodExcludedSuffixes] at hx
  | false =>
  cases h2 : endsWithStr n ".m3u8" with
  | true =>
    have hs : List.IsSuffix ('.' :: ['m', '3', 'u', '8']) n.data := by
      have := of_decide_eq_true h2
      exact this
    have := fsuffix_of_suffix n ['m', '3', 'u', '8'] (by decide) hs
    rw [this] at hx
    simp [vodExcludedSuffixes] at hx
  | false =>
  cases h3 : endsWithStr n ".part" with
  | true =>
    have hs : List.IsSuffix ('.' :: ['p', 'a', 'r', 't']) n.data := by
      have := of_decide_eq_true h3
      exact this
    have := fsuffix_of_suffix n ['p', 'a', 'r', 't'] (by decide) hs
    rw [this] at hx
    simp [vodExcludedSuffixes] at hx
  | false => rfl

/-! ## Claim theorems -/

/-- Claim C2 (confirmed): inside the locked section of `_try_restart`, a
non-stale, non-stopping entry increments the restart attempt counter
exactly once and hands the post-increment attempt number to the delay
computation; the delay for attempt `n ≥ 1` equals
`min(3 * 2^(n-1), 30)` — concretely `3 * 2^(n-1)` for `n ≤ 4` and the cap
`30` from attempt 5 on — and a stale or stopping entry does not touch the
counter at all. -/
theorem c2_restart_backoff :
    (∀ (g : Nat) (s : StreamState), g = s.generation → s.stopping = false →
      tryRestartEnter g s =
        ({ s with restartCount := s.restartCount + 1, status := StreamStatus.restarting },
          some (s.restartCount + 1)) ∧
      restartDelay (s.restartCount + 1) = min (3 * 2 ^ s.restartCount) 30) ∧
    (∀ n : Nat, 1 ≤ n → restartDelay n = min (3 * 2 ^ (n - 1)) 30) ∧
    (∀ n : Nat, 1 ≤ n → n ≤ 4 → restartDelay n = 3 * 2 ^ (n - 1)) ∧
    (∀ n : Nat, 5 ≤ n → restartDelay n = 30) ∧
    (∀ (g : Nat) (s : StreamState), g ≠ s.generation ∨ s.stopping = true →
      tryRestartEnter g s = (s, none)) := by
  refine ⟨?_, ?_, ?_, ?_, ?_⟩
  · intro g s hg hs
    constructor
    · simp [tryRestartEnter, hg, hs]
    · simp [restartDelay]
  · intro n hn
    rfl
  · intro n h1 h4
    interval_cases n <;> decide
  · intro n h5
    show min (3 * 2 ^ (n - 1)) 30 = 30
    have hpow : (16 : Nat) ≤ 2 ^ (n - 1) := by
      calc (16 : Nat) = 2 ^ 4 := by norm_num
      _ ≤ 2 ^ (n - 1) := Nat.pow_le_pow_right (by norm_num) (by omega)
    generalize 2 ^ (n - 1) = x at hpow ⊢
    omega
  · intro g s h
    simp only [tryRestartEnter, if_pos h]

/-- Witness for C2 at a concrete non-stale state. -/
theorem c2_restart_backoff_witness :
    tryRestartEnter 2
        { generation := 2, stopping := false, restartCount := 1,
          status := StreamStatus.running, errorMessage := "", processAlive := false,
          feederAlive := false, stderrOpen := false, isPlatform := true,
          isVod := false } =
      ({ generation := 2, stopping := false, restartCount := 2,
         status := StreamStatus.restarting, errorMessage := "", processAlive := false,
         feederAlive := false, stderrOpen := false, isPlatform := true,
         isVod := false }, some 2) ∧
    restartDelay 2 = min (3 * 2 ^ 1) 30 := by
  exact c2_restart_backoff.1 2 _ rfl rfl

/-- Claim C3 (confirmed): when the monitor of the current generation sees
the transcoder exit and stopping is not set, a platform stream triggers a
restart attempt for every exit code, 0 included; a non-platform stream
goes to `stopped` on exit code 0 and to `error` on any other exit code,
with the code recorded in the error message, and no restart is
triggered. -/
theorem c3_monitor_exit_policy (g : Nat) (ret : Int) (s : StreamState)
    (hg : g = s.generation) (hs : s.stopping = false) :
    (s.isPlatform = true → (monitorOnExit g ret s).2 = MonitorAction.triggerRestart) ∧
    (s.isPlatform = false → ret = 0 →
      (monitorOnExit g ret s).1.status = StreamStatus.stopped ∧
      (monitorOnExit g ret s).2 = MonitorAction.doNothing) ∧
    (s.isPlatform = false → ret ≠ 0 →
      (monitorOnExit g ret s).1.status = StreamStatus.error ∧
      (monitorOnExit g ret s).1.errorMessage = exitCodeMsg ret ∧
      containsStr (monitorOnExit g ret s).1.errorMessage (toString ret) = true ∧
      (monitorOnExit g ret s).2 = MonitorAction.doNothing) := by
  subst hg
  by_cases hf : s.feederAlive = true <;>
  by_cases hr : ret = 0 <;>
  by_cases hp : s.isPlatform = true <;>
    simp [monitorOnExit, hf, hr, hp, hs, exitCodeMsg, containsStr_append_right]

/-- Witness for C3: a non-platform stream whose transcoder exits with
code 7 ends in `error` with the code recorded and no restart. -/
theorem c3_monitor_exit_policy_witness :
    (monitorOnExit 4 7
        { generation := 4, stopping := false, restartCount := 0,
          status := StreamStatus.running, errorMessage := "", processAlive := false,
          feederAlive := false, stderrOpen := true, isPlatform := false,
          isVod := false }).1.status = StreamStatus.error ∧
    (monitorOnExit 4 7
        { generation := 4, stopping := false, restartCount := 0,
          status := StreamStatus.running, errorMessage := "", processAlive := false,
          feederAlive := false, stderrOpen := true, isPlatform := false,
          isVod := false }).1.errorMessage = exitCodeMsg 7 ∧
    containsStr
        (monitorOnExit 4 7
          { generation := 4, stopping := false, restartCount := 0,
            status := StreamStatus.running, errorMessage := "", processAlive := false,
            feederAlive := false, stderrOpen := true, isPlatform := false,
            isVod := false }).1.errorMessage (toString (7 : Int)) = true ∧
    (monitorOnExit 4 7
        { generation := 4, stopping := false, restartCount := 0,
          status := StreamStatus.running, errorMessage := "", processAlive := false,
          feederAlive := false, stderrOpen := true, isPlatform := false,
          isVod := false }).2 = MonitorAction.doNothing := by
  exact (c3_monitor_exit_policy 4 7 _ rfl rfl).2.2 rfl (by decide)

/-- Claim C8 (confirmed): when the dispatched launch raises, `start()`
leaves the stream in `error` with the exception detail as the error
message and spawns no background thread; the restart counter is untouched
and no restart of the failed launch is scheduled. -/
theorem c8_launch_failure (env : LaunchEnv) (s : StreamState) (e : String)
    (hp : s.processAlive = false) (he : env.result = Except.error e) :
    startOp env s =
      ({ s with stopping := false, generation := s.generation + 1,
                status := StreamStatus.error, errorMessage := e }, []) := by
  simp [startOp, hp, he]

/-- Witness for C8 at a concrete failing launch. -/
theorem c8_launch_failure_witness :
    startOp ⟨Except.error "ffmpeg: not found"⟩
        { generation := 0, stopping := false, restartCount := 0,
          status := StreamStatus.starting, errorMessage := "", processAlive := false,
          feederAlive := false, stderrOpen := false, isPlatform := false,
          isVod := false } =
      ({ generation := 1, stopping := false, restartCount := 0,
         status := StreamStatus.error, errorMessage := "ffmpeg: not found",
         processAlive := false, feederAlive := false, stderrOpen := false,
         isPlatform := false, isVod := false }, []) := by
  exact c8_launch_failure ⟨Except.error "ffmpeg: not found"⟩ _ "ffmpeg: not found" rfl rfl

/-- Claim C9 (confirmed): for every URL the registry loop finds a handler
(the catch-all generic handler accepts everything), `get_handler` returns
the first accepting handler of the ordered list, and the
`handler is None` error branch of the background initialization can never
be taken. -/
theorem c9_handler_registry_total (url : String) :
    getHandlerOpt url = some (getHandler url) ∧
    (getHandlerOpt url).isNone = false ∧
    canHandle HandlerKind.generic url = true ∧
    getHandler url =
      (if canHandle HandlerKind.twitch url = true then HandlerKind.twitch
       else if canHandle HandlerKind.youtube url = true then HandlerKind.youtube
       else if canHandle HandlerKind.amss url = true then HandlerKind.amss
       else HandlerKind.generic) := by
  have hgen : canHandle HandlerKind.generic url = true := rfl
  by_cases h1 : canHandle HandlerKind.twitch url = true <;>
  by_cases h2 : canHandle HandlerKind.youtube url = true <;>
  by_cases h3 : canHandle HandlerKind.amss url = true <;>
    simp [getHandler, getHandlerOpt, findHandler, registryHandlers, h1, h2, h3, hgen]

/-- Claim C10 (confirmed): saving a stream whose `(user_id, stream_id)`
key already has a row updates `name`, `status`, `error_message`,
`is_platform_url` and `is_vod`, leaves the stored `source_url` and
`created_at` unchanged, and inserts no new row. -/
theorem c10_upsert_frame (db : List StreamRow) (r : StreamRow)
    (userId : Nat) (streamId : String)
    (nm url st errMsg : String) (plat vod : Bool) (now : Nat)
    (hmem : r ∈ db) (hu : r.userId = userId) (hsid : r.streamId = streamId) :
    upsertUpdate r nm st errMsg plat vod ∈
        saveStream db userId streamId nm url st errMsg plat vod now ∧
    (upsertUpdate r nm st errMsg plat vod).sourceUrl = r.sourceUrl ∧
    (upsertUpdate r nm st errMsg plat vod).createdAt = r.createdAt ∧
    (upsertUpdate r nm st errMsg plat vod).name = nm ∧
    (upsertUpdate r nm st errMsg plat vod).status = st ∧
    (upsertUpdate r nm st errMsg plat vod).errorMessage = errMsg ∧
    (upsertUpdate r nm st errMsg plat vod).isPlatformUrl = plat ∧
    (upsertUpdate r nm st errMsg plat vod).isVod = vod ∧
    (saveStream db userId streamId nm url st errMsg plat vod now).length = db.length := by
  have hany : (db.any fun x => x.userId = userId ∧ x.streamId = streamId) = true := by
    rw [List.any_eq_true]
    exact ⟨r, hmem, by simp [hu, hsid]⟩
  have hsave : saveStream db userId streamId nm url st errMsg plat vod now =
      db.map fun x =>
        if x.userId = userId ∧ x.streamId = streamId then
          upsertUpdate x nm st errMsg plat vod
        else x := by
    simp only [saveStream, hany, if_true]
  refine ⟨?_, rfl, rfl, rfl, rfl, rfl, rfl, rfl, by rw [hsave, List.length_map]⟩
  rw [hsave]
  have him := List.mem_map_of_mem
    (f := fun x =>
      if x.userId = userId ∧ x.streamId = streamId then
        upsertUpdate x nm st errMsg plat vod
      else x) hmem
  simpa [hu, hsid] using him

/-- Witness for C10 at a concrete one-row database. -/
theorem c10_upsert_frame_witness :
    upsertUpdate
        { userId := 1, streamId := "abc123", name := "Cam", sourceUrl := "rtsp://h/c",
          status := "initializing", errorMessage := "", isPlatformUrl := false,
          isVod := false, createdAt := 100 } "Cam" "running" "" false false ∈
      saveStream
        [{ userId := 1, streamId := "abc123", name := "Cam", sourceUrl := "rtsp://h/c",
           status := "initializing", errorMessage := "", isPlatformUrl := false,
           isVod := false, createdAt := 100 }]
        1 "abc123" "Cam" "rtsp://other" "running" "" false false 200 ∧
    (upsertUpdate
        { userId := 1, streamId := "abc123", name := "Cam", sourceUrl := "rtsp://h/c",
          status := "initializing", errorMessage := "", isPlatformUrl := false,
          isVod := false, createdAt := 100 } "Cam" "running" "" false false).sourceUrl =
      "rtsp://h/c" ∧
    (upsertUpdate
        { userId := 1, streamId := "abc123", name := "Cam", sourceUrl := "rtsp://h/c",
          status := "initializing", errorMessage := "", isPlatformUrl := false,
          isVod := false, createdAt := 100 } "Cam" "running" "" false false).createdAt = 100 := by
  have h := c10_upsert_frame
    [{ userId := 1, streamId := "abc123", name := "Cam", sourceUrl := "rtsp://h/c",
       status := "initializing", errorMessage := "", isPlatformUrl := false,
       isVod := false, createdAt := 100 }]
    { userId := 1, streamId := "abc123", name := "Cam", sourceUrl := "rtsp://h/c",
      status := "initializing", errorMessage := "", isPlatformUrl := false,
      isVod := false, createdAt := 100 }
    1 "abc123" "Cam" "rtsp://other" "running" "" false false 200
    (by simp) rfl rfl
  exact ⟨h.1, h.2.1, h.2.2.1⟩

/-- Claim C5 (confirmed): the registry key is the composite
`(user_id, stream_id)` pair; adding a stream under user `a` leaves user
the listing of user `b` unchanged for `a ≠ b` (whatever the names), and
every descriptor a listing returns comes from an entry keyed by the
id of the listing user. -/
theorem c5_registry_isolation (reg : Registry) (a b : Nat) (streamId : String)
    (url : String) (nameArg : Option String) (now : Nat) (hab : a ≠ b) :
    listStreams (addStreamAsync reg a streamId url nameArg now) b = listStreams reg b ∧
    (∀ d ∈ listStreams reg b, ∃ sid, ((b, sid), d) ∈ reg) := by
  constructor
  · unfold addStreamAsync dictInsert
    by_cases hk : (reg.any fun e => e.1 = (a, streamId)) = true
    · rw [if_pos hk]
      unfold listStreams
      rw [List.filterMap_map]
      apply List.filterMap_congr
      intro e _
      by_cases he : e.1 = (a, streamId)
      · have hb : e.1.1 ≠ b := by rw [he]; exact hab
        simp [he, hb, hab]
      · simp [he]
    · rw [if_neg hk]
      unfold listStreams
      rw [List.filterMap_append]
      simp [hab]
  · intro d hd
    unfold listStreams at hd
    rw [List.mem_filterMap] at hd
    obtain ⟨⟨⟨u, sid⟩, desc⟩, hmem, hsome⟩ := hd
    by_cases hu : u = b
    · refine ⟨sid, ?_⟩
      simp only [hu, if_true, Option.some.injEq] at hsome
      rw [← hsome, ← hu]
      exact hmem
    · simp [hu] at hsome

/-- Witness for C5: user 2 sees no change from user 1 adding a stream
with the same display name. -/
theorem c5_registry_isolation_witness :
    listStreams
        (addStreamAsync [((1, "aaaa"), mkInitDesc "aaaa" (some "Cam") "rtsp://h/1" 0)]
          1 "bbbb" "rtsp://h/2" (some "Cam") 5) 2 =
      listStreams [((1, "aaaa"), mkInitDesc "aaaa" (some "Cam") "rtsp://h/1" 0)] 2 :=
  (c5_registry_isolation [((1, "aaaa"), mkInitDesc "aaaa" (some "Cam") "rtsp://h/1" 0)]
    1 2 "bbbb" "rtsp://h/2" (some "Cam") 5 (by decide)).1

theorem stopOp_events_eq (env : StopEnv) (s : StreamState) :
    (stopOp env s).2 =
      (if s.feederAlive = true then [StopEvent.killFeeder] else []) ++
        (if s.processAlive = true then
          if env.waitTimedOut = true then
            [StopEvent.sigintTranscoder, StopEvent.killTranscoder]
          else [StopEvent.sigintTranscoder]
        else []) ++
        (if s.stderrOpen = true then [StopEvent.closeStderrLog] else []) := rfl

theorem stop_teardown_order_aux (evs : List StopEvent) (fa pa w so : Bool)
    (h : evs =
      (if fa = true then [StopEvent.killFeeder] else []) ++
        (if pa = true then
          if w = true then [StopEvent.sigintTranscoder, StopEvent.killTranscoder]
          else [StopEvent.sigintTranscoder]
        else []) ++
        (if so = true then [StopEvent.closeStderrLog] else [])) :
    (fa = true → evs.head? = some StopEvent.killFeeder) ∧
    (StopEvent.killFeeder ∈ evs ↔ fa = true) ∧
    (∀ i j : Fin evs.length,
        evs.get i = StopEvent.killFeeder →
        (evs.get j = StopEvent.sigintTranscoder ∨
          evs.get j = StopEvent.killTranscoder) →
        (i : Nat) < (j : Nat)) ∧
    (StopEvent.killTranscoder ∈ evs → w = true) ∧
    (∀ i j : Fin evs.length,
        evs.get i = StopEvent.sigintTranscoder →
        evs.get j = StopEvent.killTranscoder →
        (i : Nat) < (j : Nat)) ∧
    (∀ i j : Fin evs.length,
        evs.get i = StopEvent.closeStderrLog →
        (i : Nat) < (j : Nat) → False) := by
  subst h
  cases fa <;> cases pa <;> cases w <;> cases so <;> decide

/-- Claim C4 (confirmed): in every `stop()` execution the feeder kill
(issued exactly when a feeder is alive) comes strictly before any signal
to the transcoder; the transcoder is first signalled gracefully and a
forced kill happens only when the bounded wait timed out, always after
the graceful signal; the stderr log handle is released afterwards (the
release, when issued, is the last action) and is closed in the final
state.  In particular `stop()` never signals the transcoder before the
feeder. -/
theorem c4_stop_teardown_order (env : StopEnv) (s : StreamState) :
    ((stopOp env s).1.stderrOpen = false ∧
      (stopOp env s).1.status = StreamStatus.stopped) ∧
    (s.feederAlive = true → (stopOp env s).2.head? = some StopEvent.killFeeder) ∧
    (StopEvent.killFeeder ∈ (stopOp env s).2 ↔ s.feederAlive = true) ∧
    (∀ i j : Fin (stopOp env s).2.length,
        (stopOp env s).2.get i = StopEvent.killFeeder →
        ((stopOp env s).2.get j = StopEvent.sigintTranscoder ∨
          (stopOp env s).2.get j = StopEvent.killTranscoder) →
        (i : Nat) < (j : Nat)) ∧
    (StopEvent.killTranscoder ∈ (stopOp env s).2 → env.waitTimedOut = true) ∧
    (∀ i j : Fin (stopOp env s).2.length,
        (stopOp env s).2.get i = StopEvent.sigintTranscoder →
        (stopOp env s).2.get j = StopEvent.killTranscoder →
        (i : Nat) < (j : Nat)) ∧
    (∀ i j : Fin (stopOp env s).2.length,
        (stopOp env s).2.get i = StopEvent.closeStderrLog →
        (i : Nat) < (j : Nat) → False) :=
  ⟨⟨rfl, rfl⟩,
    stop_teardown_order_aux (stopOp env s).2 s.feederAlive s.processAlive
      env.waitTimedOut s.stderrOpen (stopOp_events_eq env s)⟩

/-- Witness for C4: with a live feeder and transcoder and a timed-out
graceful wait, the first teardown action is the feeder kill. -/
theorem c4_stop_teardown_order_witness :
    (stopOp ⟨true⟩
        { generation := 2, stopping := false, restartCount := 0,
          status := StreamStatus.running, errorMessage := "", processAlive := true,
          feederAlive := true, stderrOpen := true, isPlatform := true,
          isVod := false }).2.head? = some StopEvent.killFeeder := by
  exact (c4_stop_teardown_order ⟨true⟩ _).2.1 rfl

/-- Claim C1 (corrected): the generation counter never decreases under
any supervisor operation; `start()` strictly increases it exactly when no
transcoder process is alive (a `start()` on a live process is a complete
no-op, so the original "strictly increases on every `start()` call" fails
there); `stop()` always increments it.  Background tasks that find the
current generation past their captured value — or the stopping flag set —
at their check point change nothing, with the two deviations the code
contains: the monitor kills a still-live feeder *before* its staleness
check (so a stale monitor is a no-op only once its feeder is gone), and
the post-delay resumption of `_try_restart` re-checks only the stopping
flag, not the generation, before calling `start()` again. -/
theorem c1_generation_discipline :
    (∀ (env : LaunchEnv) (s : StreamState), s.processAlive = false →
        (startOp env s).1.generation = s.generation + 1) ∧
    (∀ (env : LaunchEnv) (s : StreamState), s.processAlive = true →
        startOp env s = (s, [])) ∧
    (∀ (env : LaunchEnv) (s : StreamState),
        s.generation ≤ (startOp env s).1.generation) ∧
    (∀ (env : StopEnv) (s : StreamState),
        (stopOp env s).1.generation = s.generation + 1) ∧
    (∀ (g : Nat) (ret : Int) (s : StreamState),
        (monitorOnExit g ret s).1.generation = s.generation) ∧
    (∀ (g : Nat) (env : ProbeEnv) (s : StreamState),
        (healthCheckTick g env s).generation = s.generation) ∧
    (∀ (g : Nat) (s : StreamState),
        (tokenRefreshResume g s).generation = s.generation) ∧
    (∀ (g : Nat) (s : StreamState),
        (tryRestartEnter g s).1.generation = s.generation) ∧
    (∀ (env : LaunchEnv) (s : StreamState),
        s.generation ≤ (tryRestartResume env s).1.generation) ∧
    (∀ (g : Nat) (segs : List String) (s : StreamState),
        (confirmRecoveryEnd g segs s).generation = s.generation) ∧
    (∀ (g : Nat) (ret : Int) (s : StreamState),
        g < s.generation → s.feederAlive = false →
        monitorOnExit g ret s = (s, MonitorAction.doNothing)) ∧
    (∀ (g : Nat) (ret : Int) (s : StreamState),
        s.stopping = true → s.feederAlive = false →
        monitorOnExit g ret s = (s, MonitorAction.doNothing)) ∧
    (∀ (g : Nat) (env : ProbeEnv) (s : StreamState), g < s.generation →
        healthCheckTick g env s = s) ∧
    (∀ (g : Nat) (env : ProbeEnv) (s : StreamState), s.stopping = true →
        healthCheckTick g env s = s) ∧
    (∀ (g : Nat) (s : StreamState), g < s.generation →
        tokenRefreshResume g s = s) ∧
    (∀ (g : Nat) (s : StreamState), s.stopping = true →
        tokenRefreshResume g s = s) ∧
    (∀ (g : Nat) (s : StreamState), g < s.generation →
        tryRestartEnter g s = (s, none)) ∧
    (∀ (g : Nat) (s : StreamState), s.stopping = true →
        tryRestartEnter g s = (s, none)) ∧
    (∀ (env : LaunchEnv) (s : StreamState), s.stopping = true →
        tryRestartResume env s = (s, [])) ∧
    (∀ (g : Nat) (segs : List String) (s : StreamState), g < s.generation →
        confirmRecoveryEnd g segs s = s) := by
  refine ⟨?_, ?_, ?_, ?_, ?_, ?_, ?_, ?_, ?_, ?_, ?_, ?_, ?_, ?_, ?_, ?_, ?_, ?_, ?_, ?_⟩
  · intro env s hp
    cases he : env.result <;> simp [startOp, hp, he]
  · intro env s hp
    simp [startOp, hp]
  · intro env s
    by_cases hp : s.processAlive = true
    · simp [startOp, hp]
    · rw [Bool.not_eq_true] at hp
      cases he : env.result <;> simp [startOp, hp, he]
  · intro env s
    simp [stopOp]
  · intro g ret s
    unfold monitorOnExit
    dsimp only
    split_ifs <;> rfl
  · intro g env s
    unfold healthCheckTick
    split_ifs <;> rfl
  · intro g s
    unfold tokenRefreshResume
    split_ifs <;> rfl
  · intro g s
    unfold tryRestartEnter
    split_ifs <;> rfl
  · intro env s
    unfold tryRestartResume
    split
    · exact Nat.le_refl _
    · by_cases hp : s.processAlive = true
      · simp [startOp, hp]
      · rw [Bool.not_eq_true] at hp
        cases he : env.result <;> simp [startOp, hp, he]
  · intro g segs s
    unfold confirmRecoveryEnd
    split <;> rfl
  · intro g ret s hg hf
    have hne : g ≠ s.generation := Nat.ne_of_lt hg
    simp [monitorOnExit, hf, hne]
  · intro g ret s hs hf
    simp [monitorOnExit, hf, hs]
  · intro g env s hg
    have hne : g ≠ s.generation := Nat.ne_of_lt hg
    simp [healthCheckTick, hne]
  · intro g env s hs
    simp [healthCheckTick, hs]
  · intro g s hg
    have hne : g ≠ s.generation := Nat.ne_of_lt hg
    simp [tokenRefreshResume, hne]
  · intro g s hs
    simp [tokenRefreshResume, hs]
  · intro g s hg
    have hne : g ≠ s.generation := Nat.ne_of_lt hg
    simp [tryRestartEnter, hne]
  · intro g s hs
    simp [tryRestartEnter, hs]
  · intro env s hs
    simp [tryRestartResume, hs]
  · intro g segs s hg
    have hne : g ≠ s.generation := Nat.ne_of_lt hg
    simp [confirmRecoveryEnd, hne]

/-- Witness for C1 at concrete inputs: a `start()` on a dead process bumps
the generation by one. -/
theorem c1_generation_discipline_witness :
    (startOp ⟨Except.ok ()⟩
        { generation := 3, stopping := false, restartCount := 0,
          status := StreamStatus.stopped, errorMessage := "", processAlive := false,
          feederAlive := false, stderrOpen := false, isPlatform := false,
          isVod := false }).1.generation = 3 + 1 := by
  exact c1_generation_discipline.1 ⟨Except.ok ()⟩ _ rfl

/-- Counterexample to C1 as stated: (a) a `start()` call on a supervisor
whose transcoder is still alive does not increase the generation at all;
(b) a monitor whose captured generation 3 is below the current generation
7 still kills the live feeder, a state change performed by a stale task;
(c) the post-delay resumption of a restart task re-checks only the
stopping flag, so with the current generation already at 9 (past any
captured value) it still mutates the state by calling `start()`. -/
theorem c1_counterexample :
    ¬ ((startOp ⟨Except.ok ()⟩
          { generation := 5, stopping := false, restartCount := 0,
            status := StreamStatus.running, errorMessage := "", processAlive := true,
            feederAlive := false, stderrOpen := true, isPlatform := true,
            isVod := false }).1.generation > 5) ∧
    ((monitorOnExit 3 0
        { generation := 7, stopping := false, restartCount := 0,
          status := StreamStatus.running, errorMessage := "", processAlive := true,
          feederAlive := true, stderrOpen := true, isPlatform := true,
          isVod := false }).1 ≠
      { generation := 7, stopping := false, restartCount := 0,
        status := StreamStatus.running, errorMessage := "", processAlive := true,
        feederAlive := true, stderrOpen := true, isPlatform := true,
        isVod := false } ∧ 3 < 7) ∧
    ((tryRestartResume ⟨Except.ok ()⟩
        { generation := 9, stopping := false, restartCount := 2,
          status := StreamStatus.restarting, errorMessage := "", processAlive := false,
          feederAlive := false, stderrOpen := false, isPlatform := true,
          isVod := false }).1 ≠
      { generation := 9, stopping := false, restartCount := 2,
        status := StreamStatus.restarting, errorMessage := "", processAlive := false,
        feederAlive := false, stderrOpen := false, isPlatform := true,
        isVod := false }) := by
  refine ⟨by decide, ⟨by decide, by decide⟩, by decide⟩

/-- Claim C6 (confirmed): when the working directory already holds a
cached `source_video.*` asset, the VOD `start()` path — the stale-output
purge followed by `_start_vod` — performs zero download invocations,
raises nothing, launches the transcoder against a cached asset, and the
asset is still present afterwards: the purge deletes only `*.ts`,
`*.m3u8` and `*.part` files, which a cached asset can never be. -/
theorem c6_vod_idempotence (env : VodEnv) (dir : List String) (v : String)
    (hv : v ∈ dir) (hcached : isCachedVodAsset v = true) :
    (startVodFromStart env dir).fetchCalls = 0 ∧
    (startVodFromStart env dir).raised = none ∧
    v ∈ (startVodFromStart env dir).dir ∧
    (∃ w, (startVodFromStart env dir).video = some w ∧ w ∈ dir ∧
      isCachedVodAsset w = true) := by
  have hkeep : v ∈ purgeStale dir := by
    apply List.mem_filter.mpr
    refine ⟨hv, ?_⟩
    rw [cached_not_purged v hcached]
    rfl
  have hfil : v ∈ (purgeStale dir).filter (fun n => isCachedVodAsset n) :=
    List.mem_filter.mpr ⟨hkeep, hcached⟩
  cases hmatch : (purgeStale dir).filter (fun n => isCachedVodAsset n) with
  | nil =>
    rw [hmatch] at hfil
    cases hfil
  | cons w t =>
    have hw : w ∈ (purgeStale dir).filter (fun n => isCachedVodAsset n) := by
      rw [hmatch]
      exact List.mem_cons_self w t
    obtain ⟨hwp, hwc⟩ := List.mem_filter.mp hw
    have hwdir : w ∈ dir := (List.mem_filter.mp hwp).1
    unfold startVodFromStart startVodCore
    rw [hmatch]
    exact ⟨rfl, rfl, hkeep, w, rfl, hwdir, hwc⟩

/-- Witness for C6 at a concrete directory holding a cached asset and
leftover segments. -/
theorem c6_vod_idempotence_witness :
    (startVodFromStart ⟨⟨1, "boom"⟩, ⟨1, "boom"⟩, []⟩
        ["seg_000001.ts", "source_video.mp4", "stream.m3u8"]).fetchCalls = 0 ∧
    (startVodFromStart ⟨⟨1, "boom"⟩, ⟨1, "boom"⟩, []⟩
        ["seg_000001.ts", "source_video.mp4", "stream.m3u8"]).video =
      some "source_video.mp4" := by
  have h := c6_vod_idempotence ⟨⟨1, "boom"⟩, ⟨1, "boom"⟩, []⟩
    ["seg_000001.ts", "source_video.mp4", "stream.m3u8"] "source_video.mp4"
    (by decide) (by decide)
  exact ⟨h.1, by decide⟩

/-- Claim C7 (confirmed): in the VOD fetch chain the second strategy runs
exactly when the first failed with the auth/bot-detection signature
(`"Sign in to confirm"` in its stderr); any other first failure stops the
chain after one attempt; and when every attempted strategy failed, the
VOD `start()` path ends in `error` whose message is the fixed prefix
followed by the per-strategy diagnostics joined with `" | "` (truncated
to the 400-character bound of the code, each diagnostic stripped and
truncated to 200 characters). -/
theorem c7_fetch_strategy_chain (env : VodEnv) (dir : List String) (s : StreamState)
    (hp : s.processAlive = false)
    (hnc : ∀ n ∈ dir, isCachedVodAsset n = false) :
    ((vodChain env).attempts ≥ 2 ↔
      (env.outcome1.rc ≠ 0 ∧
        containsStr env.outcome1.errOut "Sign in to confirm" = true)) ∧
    (env.outcome1.rc ≠ 0 →
      containsStr env.outcome1.errOut "Sign in to confirm" = false →
      (vodChain env).attempts = 1 ∧ (vodChain env).ok = false ∧
      (vodChain env).errorMessages = [fetchDiag "without cookies" env.outcome1]) ∧
    ((vodChain env).ok = false →
      (startVodOp env dir s).1.status = StreamStatus.error ∧
      (startVodOp env dir s).1.errorMessage =
        vodDownloadErrorMsg (vodChain env).errorMessages ∧
      containsStr (startVodOp env dir s).1.errorMessage
        ((String.intercalate " | " (vodChain env).errorMessages).take 400) = true) := by
  have hz : vodStrategies.zip [env.outcome1, env.outcome2] =
      [("without cookies", env.outcome1), ("with Chrome cookies", env.outcome2)] := rfl
  have hfil : (purgeStale dir).filter (fun n => isCachedVodAsset n) = [] := by
    rw [List.filter_eq_nil_iff]
    intro a ha
    rw [hnc a (List.mem_filter.mp ha).1]
    simp
  refine ⟨?_, ?_, ?_⟩
  · by_cases h1 : env.outcome1.rc = 0 <;>
    by_cases hb : containsStr env.outcome1.errOut "Sign in to confirm" = true <;>
    by_cases h2 : env.outcome2.rc = 0 <;>
      simp [vodChain, hz, runFetchChain, h1, hb, h2]
  · intro h1 hb
    simp [vodChain, hz, runFetchChain, h1, hb]
  · intro hok
    have hcore : startVodFromStart env dir =
        { dir := purgeStale dir, fetchCalls := (vodChain env).attempts, video := none,
          raised := some (vodDownloadErrorMsg (vodChain env).errorMessages) } := by
      unfold startVodFromStart startVodCore
      rw [hfil]
      dsimp only
      rw [hok]
      simp
    have hop : (startVodOp env dir s).1 =
        { s with stopping := false, generation := s.generation + 1,
                 status := StreamStatus.error,
                 errorMessage := vodDownloadErrorMsg (vodChain env).errorMessages } := by
      unfold startVodOp
      rw [if_neg (by rw [hp]; exact Bool.false_ne_true), hcore]
    rw [hop]
    refine ⟨rfl, rfl, ?_⟩
    unfold vodDownloadErrorMsg
    exact containsStr_append_right _ _

/-- Witness for C7: both strategies fail (the first with the bot-detection
signature), so the VOD start ends in `error` carrying both diagnostics. -/
theorem c7_fetch_strategy_chain_witness :
    (startVodOp ⟨⟨1, "Sign in to confirm you are human"⟩, ⟨1, "network down"⟩, []⟩ []
        { generation := 0, stopping := false, restartCount := 0,
          status := StreamStatus.downloading, errorMessage := "", processAlive := false,
          feederAlive := false, stderrOpen := false, isPlatform := true,
          isVod := true }).1.status = StreamStatus.error ∧
    (startVodOp ⟨⟨1, "Sign in to confirm you are human"⟩, ⟨1, "network down"⟩, []⟩ []
        { generation := 0, stopping := false, restartCount := 0,
          status := StreamStatus.downloading, errorMessage := "", processAlive := false,
          feederAlive := false, stderrOpen := false, isPlatform := true,
          isVod := true }).1.errorMessage =
      vodDownloadErrorMsg
        (vodChain ⟨⟨1, "Sign in to confirm you are human"⟩, ⟨1, "network down"⟩, []⟩).errorMessages := by
  have h := c7_fetch_strategy_chain
    ⟨⟨1, "Sign in to confirm you are human"⟩, ⟨1, "network down"⟩, []⟩ []
    { generation := 0, stopping := false, restartCount := 0,
      status := StreamStatus.downloading, errorMessage := "", processAlive := false,
      feederAlive := false, stderrOpen := false, isPlatform := true,
      isVod := true }
    rfl (by simp)
  have h3 := h.2.2 (by decide)
  exact ⟨h3.1, h3.2.1⟩
